import Mathlib

/-!
Verification of the multi-agent orchestration demo (`src/app.py`).

The development shallowly embeds the parts of `app.py` that the testable
properties talk about:

* the conversation state (`AgentState`, lines 51-55);
* the orchestrator routing function (`OrchestratorAgent.decide_next_agent`,
  lines 95-107);
* the graph node functions added in `build_graph` (lines 142-144) together
  with the conditional-edge selector and branch table (lines 151-159);
* the two file tools `ler_arquivo` (lines 21-28) and `escrever_arquivo`
  (lines 30-38).

Python exceptions that escape a function are modelled with `Option`
(`none` = the call raises); the external language-model boundary
(`agent_executor.invoke`) is an opaque parameter.
-/

/-- Authorship tag of a conversation message: `HumanMessage` or `AIMessage`
from the source's message types. -/
inductive Role where
  | human : Role
  | ai : Role
deriving DecidableEq, Repr

/-- A conversation message: an authorship tag and its text `content`
(mirrors `BaseMessage.content` as used by the source). -/
structure Message where
  role : Role
  content : String
deriving DecidableEq, Repr

/-- `AgentState` (app.py lines 51-55): the list of conversation messages
(merged with `operator.add`, i.e. by concatenation) and the `next_agent`
field (plain channel: a node that does not return the key leaves it
unchanged). -/
structure AgentState where
  messages : List Message
  next_agent : String
deriving DecidableEq, Repr

/-- Python `str.lower()` on one character, for the ASCII range and the
Latin-1 supplement (`À`-`Þ` except `×` map 32 code points up). Characters
outside these ranges are returned unchanged; no such character lowercases
to a character of the three routing phrases, so substring matching against
them is unaffected. -/
def pyLowerChar (c : Char) : Char :=
  if 65 ≤ c.toNat ∧ c.toNat ≤ 90 then Char.ofNat (c.toNat + 32)
  else if 192 ≤ c.toNat ∧ c.toNat ≤ 222 ∧ c.toNat ≠ 215 then Char.ofNat (c.toNat + 32)
  else c

/-- Python `str.lower()`: character-wise lowercasing (app.py line 100, 102,
104 apply it to the last message's content). -/
def pyLower (s : String) : String :=
  String.mk (s.data.map pyLowerChar)

/-- Does `h` start with `n`? (helper for the substring test). -/
def beginsWith : List Char → List Char → Bool
  | [], _ => true
  | _ :: _, [] => false
  | a :: n, b :: h => a == b && beginsWith n h

/-- Does the character list `h` contain `n` as a contiguous run? -/
def hasSub (n : List Char) : List Char → Bool
  | [] => beginsWith n []
  | b :: t => beginsWith n (b :: t) || hasSub n t

/-- Python's substring operator `needle in hay` on strings. -/
def py_in (needle hay : String) : Bool :=
  hasSub needle.data hay.data

/-- The `langgraph` termination signal `END`, the string `"__end__"`. -/
def END : String := "__end__"

/-- `OrchestratorAgent.decide_next_agent` (app.py lines 95-107).
`state['messages'][-1]` raises `IndexError` when the message list is
empty, modelled by `none`; otherwise the routing label is returned.
The phrases are exactly the source's literals: note line 100 tests the
unaccented `"analise de dados"`. -/
def decide_next_agent (state : AgentState) : Option String :=
  match state.messages.getLast? with
  | none => none
  | some last =>
    let last_message := pyLower last.content
    if py_in "analise de dados" last_message then some "analista_dados"
    else if py_in "pesquisa" last_message then some "pesquisador"
    else if py_in "criação de conteúdo" last_message then some "criador_conteudo"
    else some END

/-- The `"orquestrador"` node (app.py line 142): it returns
`{"messages": [AIMessage(content=decide_next_agent(state))]}`; the
`operator.add` reducer appends that one message, and `next_agent`, not
being in the returned dict, is left unchanged. `none` models the
`IndexError` propagating out of `decide_next_agent`. -/
def orquestrador_node (state : AgentState) : Option AgentState :=
  (decide_next_agent state).map fun label =>
    { messages := state.messages ++ [Message.mk Role.ai label]
      next_agent := state.next_agent }

/-- The `"pesquisador"` node (app.py line 143): it returns
`{"messages": [pesquisador.agent_executor.invoke(state)]}`. The result of
the external `invoke` call (the language-model boundary) is the opaque
parameter `invoke_result`; the reducer appends it, `next_agent` is left
unchanged. -/
def pesquisador_node (invoke_result : Message) (state : AgentState) : AgentState :=
  { messages := state.messages ++ [invoke_result]
    next_agent := state.next_agent }

/-- The `"analista_dados"` node (app.py line 144), same shape as the
researcher node with the analyst's executor. -/
def analista_dados_node (invoke_result : Message) (state : AgentState) : AgentState :=
  { messages := state.messages ++ [invoke_result]
    next_agent := state.next_agent }

/-- The conditional-edge selector (app.py line 153):
`lambda state: state['messages'][-1].content`; `none` models the
`IndexError` on an empty message list. -/
def edge_selector (state : AgentState) : Option String :=
  (state.messages.getLast?).map Message.content

/-- The conditional-edge branch table (app.py lines 154-158): the three
wired branch keys; any other selector value has no edge (`langgraph`
raises), modelled by `none`. -/
def path_map (label : String) : Option String :=
  if label = "pesquisador" then some "pesquisador"
  else if label = "analista_dados" then some "analista_dados"
  else if label = END then some END
  else none

/-- The file-system environment the two file tools run against.
`files` maps a path to its content when the file exists (`open(p, 'r')`
raises `FileNotFoundError` exactly when `files p = none`).
`writeError p = some e` models `open(p, 'w')` / `f.write` raising an
`Exception` with message `e` (app.py line 37 catches it); e.g. in Python
`open("", 'w')` always raises. `writeError p = none` means the write at
`p` succeeds. -/
structure FileSystem where
  files : String → Option String
  writeError : String → Option String

/-- `ler_arquivo` (app.py lines 21-28): returns the file's content, or,
when the file does not exist, catches `FileNotFoundError` and returns the
error string naming the path. -/
def ler_arquivo (fs : FileSystem) (file_path : String) : String :=
  match fs.files file_path with
  | some content => content
  | none => "Erro: Arquivo não encontrado em " ++ file_path

/-- `escrever_arquivo` (app.py lines 30-38): writes `content` at
`file_path` and returns a success string; any exception during the write
is caught and turned into an error string. Returns the resulting file
system together with the returned string. -/
def escrever_arquivo (fs : FileSystem) (file_path content : String) :
    FileSystem × String :=
  match fs.writeError file_path with
  | some e => (fs, "Erro ao escrever o arquivo: " ++ e)
  | none =>
    ({ fs with files := fun p => if p = file_path then some content else fs.files p },
     "Conteúdo salvo com sucesso em " ++ file_path)

/-- A list starts with itself. -/
lemma beginsWith_self : ∀ l : List Char, beginsWith l l = true
  | [] => rfl
  | a :: t => by simp [beginsWith, beginsWith_self t]

/-- A list occurs as a contiguous run at the end of anything appended in
front of it. -/
lemma hasSub_suffix (n : List Char) : ∀ pre : List Char, hasSub n (pre ++ n) = true
  | [] => by
    cases n with
    | nil => rfl
    | cons a t => simp [hasSub, beginsWith_self]
  | b :: pre => by simp [hasSub, hasSub_suffix n pre]

/-- Concrete states and messages used in the closed theorems below. -/
def driver_input1 : Message :=
  Message.mk Role.human "Preciso de uma análise de dados sobre o arquivo vendas.txt."

def c2_message : Message :=
  Message.mk Role.human "Faça uma pesquisa com analise de dados."

def c5_state : AgentState :=
  AgentState.mk [Message.mk Role.human "Faça uma pesquisa."] "orquestrador"

def c5w_state : AgentState :=
  AgentState.mk [Message.mk Role.human "pesquisa"] "a"

def c5w_result : AgentState :=
  AgentState.mk [Message.mk Role.human "pesquisa", Message.mk Role.ai "pesquisador"] "a"

def c6_state : AgentState :=
  AgentState.mk [Message.mk Role.human "pesquisa"] ""

def c6_result : AgentState :=
  AgentState.mk [Message.mk Role.human "pesquisa", Message.mk Role.ai "pesquisador"] ""

def c6_msg : Message := Message.mk Role.ai "Resultado da consulta."

def c7_fs : FileSystem :=
  FileSystem.mk (fun _ => none)
    (fun p => if p = "" then some "No such file or directory" else none)

def c7w_fs : FileSystem := FileSystem.mk (fun _ => none) (fun _ => none)

def c8_fs : FileSystem := FileSystem.mk (fun _ => none) (fun _ => some "disco cheio")

def c10_state : AgentState :=
  AgentState.mk [Message.mk Role.human "Quero analise de dados das vendas."] ""

def c10_result : AgentState :=
  AgentState.mk [Message.mk Role.human "Quero analise de dados das vendas.",
    Message.mk Role.ai "analista_dados"] ""

/-- Claim C1 (code bug): the driver's own data-analysis request — a message
containing "análise de dados" (accented, matched case-insensitively) — is
routed to `END`, not to `"analista_dados"`, because line 100 of the source
tests the unaccented phrase `"analise de dados"` which the accented text
does not contain. -/
theorem routing_accented_phrase_bug :
    py_in "análise de dados" (pyLower driver_input1.content) = true
    ∧ decide_next_agent (AgentState.mk [driver_input1] "") = some END
    ∧ END ≠ "analista_dados" := by
  refine ⟨by decide, by decide, by decide⟩

/-- Claim C2 (counterexample): a last message that contains "pesquisa" but
also contains "analise de dados" is routed to `"analista_dados"`, not to
`"pesquisador"` — the first branch wins. -/
theorem routing_pesquisa_overridden :
    py_in "pesquisa" (pyLower c2_message.content) = true
    ∧ decide_next_agent (AgentState.mk [c2_message] "") = some "analista_dados"
    ∧ ("analista_dados" : String) ≠ "pesquisador" := by
  refine ⟨by decide, by decide, by decide⟩

/-- Claim C2 (amended): if the last message's text contains "pesquisa"
(case-insensitive) and does not contain the earlier-matched phrase
"analise de dados", then `decide_next_agent` returns `"pesquisador"`. -/
theorem routing_pesquisa_first_match (state : AgentState) (m : Message)
    (h : state.messages.getLast? = some m)
    (h1 : py_in "analise de dados" (pyLower m.content) = false)
    (h2 : py_in "pesquisa" (pyLower m.content) = true) :
    decide_next_agent state = some "pesquisador" := by
  unfold decide_next_agent
  rw [h]
  simp [h1, h2]

theorem routing_pesquisa_first_match_check :
    decide_next_agent (AgentState.mk [Message.mk Role.human "Faça uma pesquisa sobre IA."] "")
      = some "pesquisador" :=
  routing_pesquisa_first_match _ (Message.mk Role.human "Faça uma pesquisa sobre IA.")
    (by decide) (by decide) (by decide)

/-- Claim C3 (counterexample): a message containing "criação de conteúdo"
is routed to a fourth label, `"criador_conteudo"`, which is none of the
three outcomes the claim allows. -/
theorem routing_fourth_label :
    decide_next_agent (AgentState.mk [Message.mk Role.human "Quero criação de conteúdo."] "")
      = some "criador_conteudo"
    ∧ ("criador_conteudo" : String) ≠ "pesquisador"
    ∧ ("criador_conteudo" : String) ≠ "analista_dados"
    ∧ ("criador_conteudo" : String) ≠ END := by
  refine ⟨by decide, by decide, by decide, by decide⟩

/-- Claim C3 (amended): whenever `decide_next_agent` returns a label at
all, that label is one of exactly four strings: `"analista_dados"`,
`"pesquisador"`, `"criador_conteudo"` or the termination signal `END`. -/
theorem routing_label_range (state : AgentState) (l : String)
    (h : decide_next_agent state = some l) :
    l = "analista_dados" ∨ l = "pesquisador" ∨ l = "criador_conteudo" ∨ l = END := by
  unfold decide_next_agent at h
  cases hm : state.messages.getLast? <;> rw [hm] at h
  · exact Option.noConfusion h
  · simp only [] at h
    split_ifs at h <;> (cases h; simp)

theorem routing_label_range_check :
    ("pesquisador" : String) = "analista_dados" ∨ ("pesquisador" : String) = "pesquisador"
    ∨ ("pesquisador" : String) = "criador_conteudo" ∨ ("pesquisador" : String) = END :=
  routing_label_range (AgentState.mk [Message.mk Role.human "pesquisa"] "") "pesquisador"
    (by decide)

/-- Claim C4 (counterexample): a last message containing neither of the
claim's two phrases ("análise de dados" and "pesquisa") is routed to
`"criador_conteudo"` — not to the termination signal — because the code
has a third phrase, "criação de conteúdo". -/
theorem routing_neither_phrase_not_end :
    py_in "análise de dados"
        (pyLower "Preciso de criação de conteúdo para o blog.") = false
    ∧ py_in "pesquisa" (pyLower "Preciso de criação de conteúdo para o blog.") = false
    ∧ decide_next_agent
        (AgentState.mk [Message.mk Role.human "Preciso de criação de conteúdo para o blog."] "")
        = some "criador_conteudo"
    ∧ ("criador_conteudo" : String) ≠ END := by
  refine ⟨by decide, by decide, by decide, by decide⟩

/-- Claim C4 (amended): if the last message's text contains none of the
three phrases the code matches — "analise de dados" (unaccented),
"pesquisa", "criação de conteúdo" — then `decide_next_agent` returns the
termination signal `END`. -/
theorem routing_default_end (state : AgentState) (m : Message)
    (h : state.messages.getLast? = some m)
    (h1 : py_in "analise de dados" (pyLower m.content) = false)
    (h2 : py_in "pesquisa" (pyLower m.content) = false)
    (h3 : py_in "criação de conteúdo" (pyLower m.content) = false) :
    decide_next_agent state = some END := by
  unfold decide_next_agent
  rw [h]
  simp [h1, h2, h3]

theorem routing_default_end_check :
    decide_next_agent (AgentState.mk [Message.mk Role.human "Bom dia!"] "") = some END :=
  routing_default_end _ (Message.mk Role.human "Bom dia!")
    (by decide) (by decide) (by decide) (by decide)

/-- Claim C5 (counterexample): running the orchestrator node on a state
whose routing decision is `"pesquisador"` leaves the `next_agent` field at
its stale previous value `"orquestrador"`: the node (app.py line 142) puts
the label into a new message and never writes `next_agent`, so the field
is not "recomputed to name the next node". -/
theorem orchestrator_keeps_stale_next_agent :
    decide_next_agent c5_state = some "pesquisador"
    ∧ (orquestrador_node c5_state).map AgentState.next_agent = some "orquestrador"
    ∧ ("orquestrador" : String) ≠ "pesquisador" := by
  refine ⟨by decide, by decide, by decide⟩

/-- Claim C5 (amended): the orchestrator node leaves `next_agent`
unchanged; the routing label is instead appended to the messages as a new
AI-authored message (which is what the conditional edge later reads). -/
theorem orchestrator_node_preserves_next_agent (state s' : AgentState)
    (h : orquestrador_node state = some s') :
    s'.next_agent = state.next_agent
    ∧ ∃ l, decide_next_agent state = some l
        ∧ s'.messages = state.messages ++ [Message.mk Role.ai l] := by
  obtain ⟨l, hl, hf⟩ := Option.map_eq_some'.mp h
  exact ⟨by rw [← hf], l, hl, by rw [← hf]⟩

theorem orchestrator_node_preserves_next_agent_check :
    c5w_result.next_agent = c5w_state.next_agent
    ∧ ∃ l, decide_next_agent c5w_state = some l
        ∧ c5w_result.messages = c5w_state.messages ++ [Message.mk Role.ai l] :=
  orchestrator_node_preserves_next_agent c5w_state c5w_result (by decide)

/-- Claim C6: every node visit appends exactly one message: for the
orchestrator node and for both specialist nodes (whatever message the
external `agent_executor.invoke` call returns), the previous message list
is a prefix of the new one and the length grows by exactly one — so no
message is removed or reordered and the extension is strict. -/
theorem node_visit_appends_exactly_one (state s' : AgentState) (m : Message)
    (h : orquestrador_node state = some s') :
    (state.messages <+: s'.messages
      ∧ s'.messages.length = state.messages.length + 1)
    ∧ (state.messages <+: (pesquisador_node m state).messages
      ∧ (pesquisador_node m state).messages.length = state.messages.length + 1)
    ∧ (state.messages <+: (analista_dados_node m state).messages
      ∧ (analista_dados_node m state).messages.length = state.messages.length + 1) := by
  obtain ⟨l, _, hf⟩ := Option.map_eq_some'.mp h
  refine ⟨⟨?_, ?_⟩, ⟨⟨[m], rfl⟩, by simp [pesquisador_node]⟩,
    ⟨[m], rfl⟩, by simp [analista_dados_node]⟩
  · exact ⟨[Message.mk Role.ai l], by rw [← hf]⟩
  · rw [← hf]; simp

theorem node_visit_appends_exactly_one_check :
    (c6_state.messages <+: c6_result.messages
      ∧ c6_result.messages.length = c6_state.messages.length + 1)
    ∧ (c6_state.messages <+: (pesquisador_node c6_msg c6_state).messages
      ∧ (pesquisador_node c6_msg c6_state).messages.length = c6_state.messages.length + 1)
    ∧ (c6_state.messages <+: (analista_dados_node c6_msg c6_state).messages
      ∧ (analista_dados_node c6_msg c6_state).messages.length
          = c6_state.messages.length + 1) :=
  node_visit_appends_exactly_one c6_state c6_result c6_msg (by decide)

/-- Claim C7 (counterexample): the write-then-read round trip fails when
the write itself fails. The path `""` (on which Python's `open(p, 'w')`
always raises) makes `escrever_arquivo` return its error string without
creating the file, and the subsequent `ler_arquivo` returns the not-found
error string instead of the content `"ola"`. -/
theorem write_read_roundtrip_fails_on_bad_path :
    ler_arquivo (escrever_arquivo c7_fs "" "ola").1 ""
      = "Erro: Arquivo não encontrado em "
    ∧ ("Erro: Arquivo não encontrado em " : String) ≠ "ola" := by
  refine ⟨by decide, by decide⟩

/-- Claim C7 (amended): when the write at the path succeeds, writing
`content` with `escrever_arquivo` and then reading the same path with
`ler_arquivo` on the unchanged file system returns exactly `content`. -/
theorem write_then_read_roundtrip (fs : FileSystem) (file_path content : String)
    (h : fs.writeError file_path = none) :
    ler_arquivo (escrever_arquivo fs file_path content).1 file_path = content := by
  unfold escrever_arquivo
  rw [h]
  simp [ler_arquivo]

theorem write_then_read_roundtrip_check :
    ler_arquivo (escrever_arquivo c7w_fs "dados.txt" "conteudo").1 "dados.txt"
      = "conteudo" :=
  write_then_read_roundtrip c7w_fs "dados.txt" "conteudo" rfl

/-- Claim C8: both tool failures come back as strings, never as
exceptions (the embedded tools are total functions into `String`):
reading a nonexistent path returns the not-found error string, which
contains the path as a substring, and a failing write returns the
write-error string describing the caught exception, leaving the file
system unchanged. -/
theorem tool_failures_become_strings (fs : FileSystem) (p c e : String)
    (hr : fs.files p = none) (hw : fs.writeError p = some e) :
    ler_arquivo fs p = "Erro: Arquivo não encontrado em " ++ p
    ∧ py_in p (ler_arquivo fs p) = true
    ∧ escrever_arquivo fs p c = (fs, "Erro ao escrever o arquivo: " ++ e) := by
  have hread : ler_arquivo fs p = "Erro: Arquivo não encontrado em " ++ p := by
    unfold ler_arquivo
    rw [hr]
  refine ⟨hread, ?_, ?_⟩
  · rw [hread]
    exact hasSub_suffix p.data ("Erro: Arquivo não encontrado em ").data
  · unfold escrever_arquivo
    rw [hw]

theorem tool_failures_become_strings_check :
    ler_arquivo c8_fs "notas.txt" = "Erro: Arquivo não encontrado em " ++ "notas.txt"
    ∧ py_in "notas.txt" (ler_arquivo c8_fs "notas.txt") = true
    ∧ escrever_arquivo c8_fs "notas.txt" "ola"
        = (c8_fs, "Erro ao escrever o arquivo: " ++ "disco cheio") :=
  tool_failures_become_strings c8_fs "notas.txt" "ola" "disco cheio" rfl rfl

/-- Claim C9 (counterexample): on a state with an empty message list the
routing function does not return a label — `state['messages'][-1]` raises
`IndexError` (modelled by `none`) — so it is not total over all
conversation states. -/
theorem decide_on_empty_messages_errors :
    decide_next_agent (AgentState.mk [] "") = none := by
  decide

/-- Claim C9 (amended): on every state whose message list is nonempty the
routing function is total and pure: it returns some label (and, being a
function of the state alone in this embedding, has no side effects). -/
theorem decide_total_on_nonempty (state : AgentState) (h : state.messages ≠ []) :
    ∃ l, decide_next_agent state = some l := by
  obtain ⟨m, hm⟩ := Option.isSome_iff_exists.mp (List.getLast?_isSome.mpr h)
  unfold decide_next_agent
  rw [hm]
  simp only []
  split_ifs <;> exact ⟨_, rfl⟩

theorem decide_total_on_nonempty_check :
    ∃ l, decide_next_agent (AgentState.mk [Message.mk Role.human "Qualquer coisa."] "")
      = some l :=
  decide_total_on_nonempty _ (by decide)

/-- Claim C10: each successful orchestrator-node run appends exactly the
AI-authored message whose content is the label chosen by
`decide_next_agent`, and the conditional-edge selector (app.py line 153)
reads that label back as the content of the last message. -/
theorem orchestrator_appends_label_edge_reads_it (state s' : AgentState)
    (h : orquestrador_node state = some s') :
    ∃ l, decide_next_agent state = some l
      ∧ s'.messages = state.messages ++ [Message.mk Role.ai l]
      ∧ edge_selector s' = some l := by
  obtain ⟨l, hl, hf⟩ := Option.map_eq_some'.mp h
  refine ⟨l, hl, by rw [← hf], ?_⟩
  unfold edge_selector
  rw [← hf]
  simp only []
  rw [List.getLast?_concat]
  rfl

theorem orchestrator_appends_label_edge_reads_it_check :
    ∃ l, decide_next_agent c10_state = some l
      ∧ c10_result.messages = c10_state.messages ++ [Message.mk Role.ai l]
      ∧ edge_selector c10_result = some l :=
  orchestrator_appends_label_edge_reads_it c10_state c10_result (by decide)
